import Mathlib

/-!
# Serialpp: the socketio connection layer (src/src/Socket.cpp, src/include/Socket.hpp)

A shallow embedding of `tcp_socket`.  The object is a record of its fields, every
member function is a function from the object (and the answers of the operating
system and of the TLS library to the calls it makes) to a `Result`: the object
afterwards, the library calls made in order, and how the call ended.

Conventions
* `SOCKET` is `int` (the non Windows branch of Socket.hpp), `INVALID_SOCKET` is `-1`.
* Pointers (`SSL*`, `SSL_CTX*`) are natural numbers, `0` is `nullptr`.
* `std::string` payloads and byte buffers are lists of bytes; exception messages
  are Lean strings.
* `USE_OPENSSL` is a boolean argument of every function with an `#ifdef` on it.
-/

/-! ## Platform constants (Socket.hpp, lines 19-27) -/

/-- The value `SOCKET_ERROR` of Socket.hpp. -/
def SOCKET_ERROR : Int := -1

/-- The value `INVALID_SOCKET` of Socket.hpp. -/
def INVALID_SOCKET : Int := -1

/-! ## OpenSSL error codes (openssl/ssl.h) -/

/-- OpenSSL constant `SSL_ERROR_SSL`. -/
def SSL_ERROR_SSL : Int := 1
/-- OpenSSL constant `SSL_ERROR_WANT_READ`. -/
def SSL_ERROR_WANT_READ : Int := 2
/-- OpenSSL constant `SSL_ERROR_WANT_WRITE`. -/
def SSL_ERROR_WANT_WRITE : Int := 3
/-- OpenSSL constant `SSL_ERROR_ZERO_RETURN`. -/
def SSL_ERROR_ZERO_RETURN : Int := 6

namespace socketio

/-- The type `byte` of Socket.hpp: `unsigned char`. -/
abbrev byte := Fin 256

/-- One node of the `addrinfo` list produced by `getaddrinfo`. -/
structure addrinfo where
  ai_family : Int
  ai_socktype : Int
  ai_protocol : Int
  ai_addr : Nat
  deriving DecidableEq, Repr

/-- Class `endpoint`: the target and its resolved candidates, in resolver order
(the `ai_next` chain as a list, `nullptr` as the empty list). -/
structure endpoint where
  domain : String
  port : Int
  addr_info : List addrinfo
  deriving DecidableEq, Repr

/-- The default constructor `endpoint::endpoint()`. -/
def endpoint.empty : endpoint := ⟨"", 0, []⟩

/-- The two exception classes declared in Socket.hpp. -/
inductive Exn where
  | socket_exception (msg : String)
  | ssl_exception (msg : String)
  deriving DecidableEq, Repr

/-- Modelled from the spec: the class `sock_exception` that `tcp_socket::swrite`
throws at Socket.cpp line 307 is declared nowhere in the repository.  The spec
(4.4, secure write path, peer closed the session cleanly) has this branch raise
`SecureError`, the error of the TLS layer, which the code declares as
`ssl_exception`. -/
def sock_exception (msg : String) : Exn := Exn.ssl_exception msg

/-- A call into the operating system or the TLS library, with its arguments. -/
inductive Call where
  | socket (cand : Nat) (family type protocol : Int)
  | connect (fd : Int) (cand : Nat) (addr : Nat)
  | shutdown (fd : Int)
  | closesocket (fd : Int)
  | send (fd : Int) (buffer : List byte) (size : Nat) (flags : Int)
  | recv (fd : Int) (size : Nat) (flags : Int)
  | SSL_CTX_new
  | SSL_new (ctx : Nat)
  | SSL_set_fd (ssl : Nat) (fd : Int)
  | SSL_connect (ssl : Nat)
  | SSL_get_error (ssl : Nat) (ret : Int)
  | SSL_shutdown (ssl : Nat)
  | SSL_free (ssl : Nat)
  | SSL_CTX_free (ctx : Nat)
  | SSL_write (ssl : Nat) (buffer : List byte) (num : Int)
  | SSL_read (ssl : Nat) (num : Int)
  | sleep_for (ms : Nat)
  deriving DecidableEq, Repr

/-- How a member function ended: it returned a value, it threw, or it is still
inside one of its loops because the environment gave no further answer. -/
inductive Outcome (α : Type) where
  | returned (value : α)
  | threw (e : Exn)
  | hangs
  deriving DecidableEq, Repr

/-- The fields of `tcp_socket` (with `sock` inherited from `base_socket`). -/
structure tcp_socket where
  sock : Int
  ept_ : endpoint
  ssl : Nat
  ssl_ctx : Nat
  deriving DecidableEq, Repr

/-- The object after a call, the library calls it made, and how it ended. -/
structure Result (α : Type) where
  state : tcp_socket
  trace : List Call
  outcome : Outcome α
  deriving DecidableEq, Repr

/-- What the operating system answers during one iteration of the loop of
`tcp_socket::connect`: the results of `::socket`, `::connect`, and of the
`shutdown` and `closesocket` calls of `sock_close`. -/
structure Attempt where
  socket_ret : Int
  connect_ret : Int
  shutdown_ret : Int
  closesocket_ret : Int
  deriving DecidableEq, Repr

/-- What the environment answers during one transfer call: the return value of the
primitive (`send`, `recv`, `SSL_write`, `SSL_read`), the bytes a receive primitive
stored, the code `SSL_get_error` reports, the text of `ERR_error_string`, and the
results of `shutdown` and `closesocket` should the call close the socket. -/
structure XferAnswer where
  ret : Int
  bytes : List byte
  ssl_error : Int
  ssl_error_string : String
  shutdown_ret : Int
  closesocket_ret : Int
  deriving DecidableEq, Repr

/-- What the TLS library answers during `ssl_handshake`: the pointers returned by
`SSL_CTX_new` and `SSL_new`, the result of `SSL_set_fd`, the successive results of
`SSL_connect` each with the code `SSL_get_error` gives for it, and the text of
`ERR_error_string`. -/
structure HandshakeAnswers where
  ctx : Nat
  ssl : Nat
  set_fd : Int
  steps : List (Int × Int)
  ssl_error_string : String
  deriving DecidableEq, Repr

end socketio

/-! ## The anonymous namespace of Socket.cpp -/

/-- The helper `sock_close` (Socket.cpp, lines 7-13): `shutdown`, and `closesocket`
only when `shutdown` returned 0.  Returns the status and the calls made. -/
def sock_close (shutdown_ret closesocket_ret : Int) (sock : Int) : Int × List socketio.Call :=
  let status := shutdown_ret
  if status = 0 then
    (closesocket_ret, [socketio.Call.shutdown sock, socketio.Call.closesocket sock])
  else
    (status, [socketio.Call.shutdown sock])

namespace socketio

/-- The default constructor `tcp_socket::tcp_socket()`. -/
def tcp_socket.new : tcp_socket := ⟨INVALID_SOCKET, endpoint.empty, 0, 0⟩

/-- The private constructor `tcp_socket::tcp_socket(SOCKET s)` used by `accept`
(Socket.cpp, lines 72-75): it sets `ept_` and `sock` and nothing else.  In a build
with `USE_OPENSSL` the members `ssl` and `ssl_ctx` are left uninitialised; the
arguments `ssl` and `ssl_ctx` are the values they happen to hold.  A build without
it has no such members and reads neither value. -/
def tcp_socket.of_socket (s : Int) (ssl ssl_ctx : Nat) : tcp_socket :=
  ⟨s, endpoint.empty, ssl, ssl_ctx⟩

/-- Member `tcp_socket::get_ssl_error`. -/
def get_ssl_error (USE_OPENSSL : Bool) (ERR_error_string : String) : String :=
  if USE_OPENSSL then ERR_error_string else ""

/-- Member `tcp_socket::is_valid`. -/
def tcp_socket.is_valid (self : tcp_socket) : Bool :=
  self.sock != INVALID_SOCKET

/-- Member `tcp_socket::is_connected`. -/
def tcp_socket.is_connected (self : tcp_socket) : Bool :=
  self.sock != INVALID_SOCKET

/-- Member `tcp_socket::is_secure`. -/
def tcp_socket.is_secure (USE_OPENSSL : Bool) (self : tcp_socket) : Bool :=
  if USE_OPENSSL then self.ssl != 0 else false

/-- The `for` loop of `tcp_socket::connect` (Socket.cpp, lines 154-169) over the
remaining candidates; `i` is the index of the first of them, `os i` the answers of
the operating system in iteration `i`.  Carries `sock`, `error_string` and the
calls made so far. -/
def connect_loop (os : Nat → Attempt) :
    List addrinfo → Nat → Int → String → List Call → Int × String × List Call
  | [], _, sock, error_string, tr => (sock, error_string, tr)
  | cur :: rest, i, _, error_string, tr =>
    let sock := (os i).socket_ret
    let tr := tr ++ [Call.socket i cur.ai_family cur.ai_socktype cur.ai_protocol]
    if sock = 0 then
      connect_loop os rest (i + 1) sock "Unable to open socket" tr
    else if (os i).connect_ret ≠ 0 then
      let closed := sock_close (os i).shutdown_ret (os i).closesocket_ret sock
      connect_loop os rest (i + 1) INVALID_SOCKET "Unable to connect"
        (tr ++ [Call.connect sock i cur.ai_addr] ++ closed.2)
    else
      (sock, error_string, tr ++ [Call.connect sock i cur.ai_addr])

/-- Member `tcp_socket::connect(endpoint)` (Socket.cpp, lines 151-173). -/
def tcp_socket.connect (self : tcp_socket) (ept : endpoint) (os : Nat → Attempt) :
    Result Unit :=
  let self := { self with ept_ := ept }
  let fin := connect_loop os self.ept_.addr_info 0 self.sock "" []
  let self := { self with sock := fin.1 }
  if self.sock = 0 then
    ⟨self, fin.2.2, Outcome.threw (Exn.socket_exception fin.2.1)⟩
  else
    ⟨self, fin.2.2, Outcome.returned ()⟩

/-- The TLS part of `tcp_socket::close` (Socket.cpp, lines 180-190). -/
def close_tls (self : tcp_socket) : tcp_socket × List Call :=
  let r1 : tcp_socket × List Call :=
    if self.ssl ≠ 0 then
      ({ self with ssl := 0 }, [Call.SSL_shutdown self.ssl, Call.SSL_free self.ssl])
    else (self, [])
  if r1.1.ssl_ctx ≠ 0 then
    ({ r1.1 with ssl_ctx := 0 }, r1.2 ++ [Call.SSL_CTX_free r1.1.ssl_ctx])
  else r1

/-- Member `tcp_socket::close` (Socket.cpp, lines 179-196). -/
def tcp_socket.close (USE_OPENSSL : Bool) (self : tcp_socket)
    (shutdown_ret closesocket_ret : Int) : Result Unit :=
  let r1 : tcp_socket × List Call := if USE_OPENSSL then close_tls self else (self, [])
  let r2 : tcp_socket × List Call :=
    if r1.1.sock ≠ 0 then
      ({ r1.1 with sock := INVALID_SOCKET },
        r1.2 ++ (sock_close shutdown_ret closesocket_ret r1.1.sock).2)
    else r1
  ⟨{ r2.1 with ept_ := endpoint.empty }, r2.2, Outcome.returned ()⟩

/-- The handshake `for` loop of `tcp_socket::ssl_handshake` (Socket.cpp, lines
224-239) over the remaining answers of `SSL_connect`.  With no answer left the
call is still polling. -/
def handshake_loop (ERR_error_string : String) :
    List (Int × Int) → tcp_socket → List Call → Result Unit
  | [], self, tr => ⟨self, tr, Outcome.hangs⟩
  | (error, code) :: rest, self, tr =>
    let tr := tr ++ [Call.SSL_connect self.ssl]
    if error = 1 then
      ⟨self, tr, Outcome.returned ()⟩
    else
      let tr := tr ++ [Call.SSL_get_error self.ssl error]
      if code = SSL_ERROR_WANT_READ ∨ code = SSL_ERROR_WANT_WRITE then
        handshake_loop ERR_error_string rest self (tr ++ [Call.sleep_for 200])
      else
        ⟨{ self with ssl := 0, ssl_ctx := 0 },
          tr ++ [Call.SSL_free self.ssl, Call.SSL_CTX_free self.ssl_ctx],
          Outcome.threw (Exn.ssl_exception
            ("Error in SSL handshake: " ++ get_ssl_error true ERR_error_string))⟩

/-- Member `tcp_socket::ssl_handshake` (Socket.cpp, lines 198-245). -/
def tcp_socket.ssl_handshake (USE_OPENSSL : Bool) (self : tcp_socket)
    (tls : HandshakeAnswers) : Result Unit :=
  if USE_OPENSSL then
    let self := { self with ssl_ctx := tls.ctx }
    let tr := [Call.SSL_CTX_new]
    if self.ssl_ctx = 0 then
      ⟨self, tr, Outcome.threw (Exn.ssl_exception
        ("Unable to create SSL context: " ++ get_ssl_error true tls.ssl_error_string))⟩
    else
      let self := { self with ssl := tls.ssl }
      let tr := tr ++ [Call.SSL_new self.ssl_ctx]
      if self.ssl = 0 then
        ⟨{ self with ssl_ctx := 0 }, tr ++ [Call.SSL_CTX_free self.ssl_ctx],
          Outcome.threw (Exn.ssl_exception
            ("Unable to create SSL handle: " ++ get_ssl_error true tls.ssl_error_string))⟩
      else
        let tr := tr ++ [Call.SSL_set_fd self.ssl self.sock]
        if tls.set_fd = 0 then
          ⟨{ self with ssl := 0, ssl_ctx := 0 },
            tr ++ [Call.SSL_free self.ssl, Call.SSL_CTX_free self.ssl_ctx],
            Outcome.threw (Exn.ssl_exception
              ("Unable to associate SSL and plain socket: "
                ++ get_ssl_error true tls.ssl_error_string))⟩
        else
          handshake_loop tls.ssl_error_string tls.steps self tr
  else
    ⟨self, [], Outcome.threw (Exn.ssl_exception
      "To use the ssl_handshake function you need to #define USE_OPENSSL")⟩

/-! ## Transfer functions (Socket.cpp, lines 247-344) -/

/-- Conversion of an `int` to `size_t` (64 bit, modular). -/
def to_size_t (x : Int) : Nat := (x % (2 ^ 64 : Int)).toNat

/-- Conversion of a `size_t` to `int` (32 bit, two's complement). -/
def to_int (n : Nat) : Int :=
  if n % 2 ^ 32 < 2 ^ 31 then ((n % 2 ^ 32 : Nat) : Int)
  else ((n % 2 ^ 32 : Nat) : Int) - 2 ^ 32

/-- The memory behind `c_str()`: the bytes of the string and the terminating NUL. -/
def c_str (str : List byte) : List byte := str ++ [0]

/-- The bytes a send primitive is given: the first `size` bytes at `buffer`. For
`SSL_write`, which takes an `int`, a negative length gives it nothing. -/
def handed_over (buffer : List byte) (size : Nat) : List byte := buffer.take size

/-- The caller's buffer after a receive primitive stored `bytes` (at most `size` of
them) at its start. -/
def store (buffer : List byte) (size : Nat) (bytes : List byte) : List byte :=
  bytes.take size ++ buffer.drop (bytes.take size).length

/-- Member `tcp_socket::uwrite`. -/
def tcp_socket.uwrite (self : tcp_socket) (buffer : List byte) (size : Nat) (flags : Int)
    (a : XferAnswer) : Result Int :=
  ⟨self, [Call.send self.sock buffer size flags], Outcome.returned a.ret⟩

/-- Member `tcp_socket::uread`; returns the value of `recv` and the buffer after. -/
def tcp_socket.uread (self : tcp_socket) (buffer : List byte) (size : Nat) (flags : Int)
    (a : XferAnswer) : Result (Int × List byte) :=
  ⟨self, [Call.recv self.sock size flags],
    Outcome.returned (a.ret, if 0 < a.ret then store buffer size a.bytes else buffer)⟩

/-- Member `tcp_socket::swrite` (Socket.cpp, lines 298-320).  `SSL_write` takes its
length as `int num`, so the `size_t` argument `size` is converted on the call. -/
def tcp_socket.swrite (USE_OPENSSL : Bool) (self : tcp_socket) (buffer : List byte)
    (size : Nat) (a : XferAnswer) : Result Int :=
  if USE_OPENSSL then
    let written := a.ret
    let tr := [Call.SSL_write self.ssl buffer (to_int size)]
    if written > 0 then
      ⟨self, tr, Outcome.returned written⟩
    else
      let tr := tr ++ [Call.SSL_get_error self.ssl written]
      if a.ssl_error = SSL_ERROR_ZERO_RETURN then
        let closed := self.close true a.shutdown_ret a.closesocket_ret
        ⟨closed.state, tr ++ closed.trace,
          Outcome.threw (sock_exception "The socket disconnected")⟩
      else if a.ssl_error = SSL_ERROR_WANT_READ ∨ a.ssl_error = SSL_ERROR_WANT_WRITE then
        ⟨self, tr ++ [Call.sleep_for 200], Outcome.returned 0⟩
      else
        ⟨self, tr, Outcome.threw (Exn.ssl_exception
          ("Error sending socket: " ++ get_ssl_error true a.ssl_error_string))⟩
  else
    ⟨self, [], Outcome.returned 0⟩

/-- Member `tcp_socket::sread` (Socket.cpp, lines 322-344).  `read_size` has type
`size_t`; `SSL_read` takes its length as `int num`, so the `size_t` argument `size`
is converted on the call.  The member `disconnect` it calls is declared nowhere in
the repository and is an argument here. -/
def tcp_socket.sread (USE_OPENSSL : Bool) (disconnect : tcp_socket → tcp_socket × List Call)
    (self : tcp_socket) (buffer : List byte) (size : Nat) (a : XferAnswer) :
    Result (Int × List byte) :=
  if USE_OPENSSL then
    let read_size : Nat := to_size_t a.ret
    let tr := [Call.SSL_read self.ssl (to_int size)]
    let buffer := if 0 < a.ret then store buffer (to_int size).toNat a.bytes else buffer
    if read_size > 0 then
      ⟨self, tr, Outcome.returned (to_int read_size, buffer)⟩
    else
      let tr := tr ++ [Call.SSL_get_error self.ssl (to_int read_size)]
      if a.ssl_error = SSL_ERROR_ZERO_RETURN then
        let d := disconnect self
        ⟨d.1, tr ++ d.2, Outcome.returned (0, buffer)⟩
      else if a.ssl_error = SSL_ERROR_WANT_READ ∨ a.ssl_error = SSL_ERROR_WANT_WRITE then
        ⟨self, tr, Outcome.returned (0, buffer)⟩
      else
        ⟨self, tr, Outcome.threw (Exn.ssl_exception
          ("Error reading socket: " ++ get_ssl_error true a.ssl_error_string))⟩
  else
    ⟨self, [], Outcome.returned (-1, buffer)⟩

/-- Member `tcp_socket::write(const byte*, size_t, int)`. -/
def tcp_socket.write (USE_OPENSSL : Bool) (self : tcp_socket) (buffer : List byte)
    (size : Nat) (flags : Int) (a : XferAnswer) : Result Int :=
  if self.is_secure USE_OPENSSL then self.swrite USE_OPENSSL buffer size a
  else self.uwrite buffer size flags a

/-- Member `tcp_socket::write(const byte)`. -/
def tcp_socket.write_byte (USE_OPENSSL : Bool) (self : tcp_socket) (b : byte)
    (a : XferAnswer) : Result Int :=
  self.write USE_OPENSSL [b] 1 0 a

/-- Member `tcp_socket::writeLine`. -/
def tcp_socket.writeLine (USE_OPENSSL : Bool) (self : tcp_socket) (str : List byte)
    (a : XferAnswer) : Result Int :=
  self.write USE_OPENSSL (c_str (str ++ [10])) (str.length + 1) 0 a

/-- Member `tcp_socket::read(byte*, size_t, int)`. -/
def tcp_socket.read (USE_OPENSSL : Bool) (disconnect : tcp_socket → tcp_socket × List Call)
    (self : tcp_socket) (buffer : List byte) (size : Nat) (flags : Int) (a : XferAnswer) :
    Result (Int × List byte) :=
  if self.is_secure USE_OPENSSL then self.sread USE_OPENSSL disconnect buffer size a
  else self.uread buffer size flags a

/-- Member `byte tcp_socket::read()`: a zero byte, a read of size 1 into it whose
return value is dropped, and the byte is returned. -/
def tcp_socket.read_byte (USE_OPENSSL : Bool)
    (disconnect : tcp_socket → tcp_socket × List Call)
    (self : tcp_socket) (a : XferAnswer) : Result byte :=
  let r := self.read USE_OPENSSL disconnect [0] 1 0 a
  match r.outcome with
  | Outcome.returned v => ⟨r.state, r.trace, Outcome.returned (v.2.headD 0)⟩
  | Outcome.threw e => ⟨r.state, r.trace, Outcome.threw e⟩
  | Outcome.hangs => ⟨r.state, r.trace, Outcome.hangs⟩

/-- The `while` loop of `tcp_socket::readLine` (Socket.cpp, lines 284-286) over the
remaining answers to its reads; `s` is the string so far.  With no answer left the
call is still blocked in a read. -/
def readLine_loop (USE_OPENSSL : Bool) (disconnect : tcp_socket → tcp_socket × List Call) :
    List XferAnswer → tcp_socket → List byte → List Call → Result (List byte)
  | [], self, _, tr => ⟨self, tr, Outcome.hangs⟩
  | a :: rest, self, s, tr =>
    let r := self.read_byte USE_OPENSSL disconnect a
    match r.outcome with
    | Outcome.returned c =>
      if c ≠ 10 then
        readLine_loop USE_OPENSSL disconnect rest r.state (s ++ [c]) (tr ++ r.trace)
      else
        ⟨r.state, tr ++ r.trace, Outcome.returned s⟩
    | Outcome.threw e => ⟨r.state, tr ++ r.trace, Outcome.threw e⟩
    | Outcome.hangs => ⟨r.state, tr ++ r.trace, Outcome.hangs⟩

/-- Member `tcp_socket::readLine` (Socket.cpp, lines 281-288). -/
def tcp_socket.readLine (USE_OPENSSL : Bool)
    (disconnect : tcp_socket → tcp_socket × List Call)
    (self : tcp_socket) (answers : List XferAnswer) : Result (List byte) :=
  readLine_loop USE_OPENSSL disconnect answers self [] []

/-! ## Observations on traces and the byte channel between two peers -/

/-- The bytes the calls of a trace gave to `send`, in order. -/
def sent_bytes : List Call → List byte
  | [] => []
  | Call.send _ buffer size _ :: rest => handed_over buffer size ++ sent_bytes rest
  | _ :: rest => sent_bytes rest

/-- A receive that delivers the single byte `b`: the primitive returns 1. -/
def delivers (b : byte) : XferAnswer := ⟨1, [b], 0, "", 0, 0⟩

/-- In order delivery of `bs` to the single byte reads of the peer. -/
def deliver_in_order (bs : List byte) : List XferAnswer := bs.map delivers

/-- Whether a call is a `recv`. -/
def Call.is_recv : Call → Bool
  | Call.recv _ _ _ => true
  | _ => false

/-- Whether a call is an `SSL_connect`. -/
def Call.is_SSL_connect : Call → Bool
  | Call.SSL_connect _ => true
  | _ => false

/-- Whether a call opens a socket for, or connects to, the candidate with index `j`. -/
def Call.touches_candidate (j : Nat) : Call → Bool
  | Call.socket i _ _ _ => i == j
  | Call.connect _ i _ => i == j
  | _ => false

end socketio

/-! ## Concrete objects and environments used to evaluate the code -/

namespace socketio

/-- The calls the handshake loop makes for a run of transient answers. -/
def transient_calls (ssl : Nat) (pre : List (Int × Int)) : List Call :=
  pre.flatMap fun x => [Call.SSL_connect ssl, Call.SSL_get_error ssl x.1, Call.sleep_for 200]

/-- An endpoint with a single candidate. -/
def ept_one : endpoint := ⟨"localhost", 1234, [⟨2, 1, 6, 100⟩]⟩

/-- An endpoint with two candidates. -/
def ept_two : endpoint := ⟨"localhost", 1234, [⟨10, 1, 6, 100⟩, ⟨2, 1, 6, 101⟩]⟩

/-- Every candidate gets descriptor 3 and refuses: `::connect` returns -1, and
`shutdown` of the unconnected socket returns -1. -/
def os_all_refuse : Nat → Attempt := fun _ => ⟨3, -1, -1, 0⟩

/-- The first candidate (descriptor 3) refuses, the others (descriptor 4) accept. -/
def os_second_accepts : Nat → Attempt :=
  fun i => if i = 0 then ⟨3, -1, -1, 0⟩ else ⟨4, 0, 0, 0⟩

/-- A connected plaintext socket on descriptor 3, no session and no context. -/
def plain3 : tcp_socket := ⟨3, endpoint.empty, 0, 0⟩

/-- A connected plaintext socket on descriptor 5, no session and no context. -/
def plain5 : tcp_socket := ⟨5, endpoint.empty, 0, 0⟩

/-- A plaintext socket on descriptor 0, as `accept` builds it in a build without
TLS when `::accept` returns 0. -/
def plain0 : tcp_socket := tcp_socket.of_socket 0 0 0

/-- The one candidate gets the valid descriptor 0 from `::socket`, and `::connect`
on it would return 0: the peer accepts. -/
def os_descriptor_zero : Nat → Attempt := fun _ => ⟨0, 0, 0, 0⟩

/-- The first candidate gets the valid descriptor 0 and its peer would accept; the
later candidates get descriptor 4 and accept. -/
def os_zero_then_four : Nat → Attempt :=
  fun i => if i = 0 then ⟨0, 0, 0, 0⟩ else ⟨4, 0, 0, 0⟩

/-- A connected socket on descriptor 3 secured by session 1 of context 2. -/
def secured3 : tcp_socket := ⟨3, endpoint.empty, 1, 2⟩

/-- A stand in for the undeclared member `disconnect` that does nothing. -/
def disconnect_nothing : tcp_socket → tcp_socket × List Call := fun self => (self, [])

/-- A receive that delivers nothing: the primitive returns 0 and stores no byte. -/
def delivers_nothing : XferAnswer := ⟨0, [], 0, "", 0, 0⟩

/-- A receive that fails: the primitive returns -1 and stores no byte. -/
def recv_fails : XferAnswer := ⟨-1, [], 0, "", 0, 0⟩

/-- The TLS read primitive fails with -1 and `SSL_get_error` reports `code`. -/
def tls_read_fails (code : Int) : XferAnswer := ⟨-1, [], code, "error:0A000126", 0, 0⟩

/-- The TLS write primitive returns 0, `SSL_get_error` reports a clean closure by
the peer, and the `shutdown` of the close that follows returns `shutdown_ret`. -/
def tls_write_peer_closed (shutdown_ret : Int) : XferAnswer :=
  ⟨0, [], SSL_ERROR_ZERO_RETURN, "", shutdown_ret, 0⟩

/-- The string "BAR" as bytes. -/
def BAR : List byte := [66, 65, 82]

/-- A handshake in which context, session and binding are created, `SSL_connect`
reports two transient conditions and then succeeds. -/
def tls_two_transients_then_success : HandshakeAnswers :=
  ⟨2, 1, 1, [(-1, SSL_ERROR_WANT_READ), (-1, SSL_ERROR_WANT_WRITE), (1, 0)], ""⟩

/-- A handshake in which context, session and binding are created, `SSL_connect`
reports one transient condition and then fails with `SSL_ERROR_SSL`. -/
def tls_transient_then_failure : HandshakeAnswers :=
  ⟨2, 1, 1, [(-1, SSL_ERROR_WANT_READ), (-1, SSL_ERROR_SSL)], "error:0A000086"⟩

end socketio

/-! ## Sequences of public operations on one object -/

namespace socketio

/-- Whether a call is an `SSL_write`. -/
def Call.is_SSL_write : Call → Bool
  | Call.SSL_write _ _ _ => true
  | _ => false

/-- Whether a call is a `closesocket`. -/
def Call.is_closesocket : Call → Bool
  | Call.closesocket _ => true
  | _ => false

/-- One call of a public member function of `tcp_socket`, with the answers of the
environment to the calls it makes. -/
inductive Op where
  | connect (ept : endpoint) (os : Nat → Attempt)
  | close (shutdown_ret closesocket_ret : Int)
  | ssl_handshake (tls : HandshakeAnswers)
  | read (buffer : List byte) (size : Nat) (flags : Int) (a : XferAnswer)
  | write (buffer : List byte) (size : Nat) (flags : Int) (a : XferAnswer)

/-- Whether an operation is a `connect`. -/
def Op.is_connect : Op → Bool
  | Op.connect _ _ => true
  | _ => false

/-- The object after one public operation, whether the operation returned or threw. -/
def Op.apply (USE_OPENSSL : Bool) (disconnect : tcp_socket → tcp_socket × List Call)
    (self : tcp_socket) : Op → tcp_socket
  | Op.connect ept os => (self.connect ept os).state
  | Op.close r c => (self.close USE_OPENSSL r c).state
  | Op.ssl_handshake tls => (self.ssl_handshake USE_OPENSSL tls).state
  | Op.read buffer size flags a => (self.read USE_OPENSSL disconnect buffer size flags a).state
  | Op.write buffer size flags a => (self.write USE_OPENSSL buffer size flags a).state

/-- The object after a sequence of public operations, in order. -/
def run_ops (USE_OPENSSL : Bool) (disconnect : tcp_socket → tcp_socket × List Call) :
    tcp_socket → List Op → tcp_socket
  | self, [] => self
  | self, op :: rest =>
    run_ops USE_OPENSSL disconnect (Op.apply USE_OPENSSL disconnect self op) rest

/-- The TLS write primitive returns -1 and `SSL_get_error` reports `code`. -/
def tls_write_fails (code : Int) : XferAnswer := ⟨-1, [], code, "", 0, 0⟩

/-- The TLS write primitive accepts `n` bytes. -/
def tls_write_accepts (n : Int) : XferAnswer := ⟨n, [], 0, "", 0, 0⟩

/-- Candidate `i` gets the fresh descriptor `3 + i` and refuses: `::connect`
returns -1, and `shutdown` of the unconnected socket returns -1. -/
def os_refuse_fresh : Nat → Attempt := fun i => ⟨3 + (i : Int), -1, -1, 0⟩

/-- A socket on descriptor 0 secured by session 1 of context 2. -/
def secured0 : tcp_socket := ⟨0, endpoint.empty, 1, 2⟩

/-- Operations on a closed object: a second close, a write, a handshake that fails,
and a read. -/
def ops_after_close : List Op :=
  [Op.close 0 0, Op.write BAR 3 0 (delivers 0), Op.ssl_handshake tls_transient_then_failure,
    Op.read [0] 1 0 delivers_nothing]

end socketio

/-! # Properties -/

/-! ## Connection establishment -/

namespace socketio

/-- The calls of `sock_close`: a `shutdown` and possibly a `closesocket`, both on
the descriptor it was given. -/
theorem sock_close_calls (shutdown_ret closesocket_ret sock : Int) :
    ∀ c ∈ (sock_close shutdown_ret closesocket_ret sock).2,
      c = Call.shutdown sock ∨ c = Call.closesocket sock := by
  intro c h
  unfold sock_close at h
  by_cases hs : shutdown_ret = 0
  · simp only [hs, if_true, List.mem_cons, List.mem_singleton] at h
    simpa using h
  · simp only [hs, if_false, List.mem_singleton] at h
    exact Or.inl h

/-- The loop of `connect` with a first success at offset `k`: it ends with the
descriptor of that candidate, and every call it adds concerns no later candidate. -/
theorem connect_loop_first_success (os : Nat → Attempt) :
    ∀ (cands : List addrinfo) (i : Nat) (sock : Int) (err : String) (tr : List Call) (k : Nat),
      k < cands.length →
      (∀ j, j < k → (os (i + j)).socket_ret = 0 ∨ (os (i + j)).connect_ret ≠ 0) →
      (os (i + k)).socket_ret ≠ 0 → (os (i + k)).connect_ret = 0 →
      (connect_loop os cands i sock err tr).1 = (os (i + k)).socket_ret ∧
      ∀ c ∈ (connect_loop os cands i sock err tr).2.2,
        c ∈ tr ∨ ∀ j, i + k < j → c.touches_candidate j = false := by
  intro cands
  induction cands with
  | nil => intro i sock err tr k hk; simp at hk
  | cons cur rest ih =>
    intro i sock err tr k hk hfail hs hc
    cases k with
    | zero =>
      simp only [Nat.add_zero] at hs hc
      simp only [connect_loop, hs, hc, if_false, ne_eq, not_true_eq_false, Nat.add_zero]
      refine ⟨trivial, ?_⟩
      intro c hmem
      simp only [List.mem_append, List.mem_singleton] at hmem
      rcases hmem with (h | h) | h
      · exact Or.inl h
      · right; intro j hj; subst h; simp [Call.touches_candidate]; omega
      · right; intro j hj; subst h; simp [Call.touches_candidate]; omega
    | succ k =>
      have h0 := hfail 0 (by omega)
      simp only [Nat.add_zero] at h0
      have hk2 : k < rest.length := by simpa using hk
      have hfail2 : ∀ j, j < k → (os (i + 1 + j)).socket_ret = 0 ∨ (os (i + 1 + j)).connect_ret ≠ 0 := by
        intro j hj
        have := hfail (j + 1) (by omega)
        rwa [show i + (j + 1) = i + 1 + j by omega] at this
      have hs2 : (os (i + 1 + k)).socket_ret ≠ 0 := by
        rwa [show i + (k + 1) = i + 1 + k by omega] at hs
      have hc2 : (os (i + 1 + k)).connect_ret = 0 := by
        rwa [show i + (k + 1) = i + 1 + k by omega] at hc
      have hidx : i + (k + 1) = i + 1 + k := by omega
      by_cases hz : (os i).socket_ret = 0
      · simp only [connect_loop, hz, if_true]
        obtain ⟨e1, e2⟩ := ih (i + 1) 0 "Unable to open socket"
          (tr ++ [Call.socket i cur.ai_family cur.ai_socktype cur.ai_protocol]) k hk2 hfail2 hs2 hc2
        refine ⟨by rw [e1, hidx], ?_⟩
        intro c hmem
        rcases e2 c hmem with h | h
        · simp only [List.mem_append, List.mem_singleton] at h
          rcases h with h | h
          · exact Or.inl h
          · right; intro j hj; subst h; simp [Call.touches_candidate]; omega
        · right; intro j hj; exact h j (by omega)
      · have hcn : (os i).connect_ret ≠ 0 := by
          rcases h0 with h | h
          · exact absurd h hz
          · exact h
        simp only [connect_loop, hz, hcn, if_false, if_true, ne_eq, not_false_eq_true]
        obtain ⟨e1, e2⟩ := ih (i + 1) INVALID_SOCKET "Unable to connect"
          (tr ++ [Call.socket i cur.ai_family cur.ai_socktype cur.ai_protocol]
            ++ [Call.connect (os i).socket_ret i cur.ai_addr]
            ++ (sock_close (os i).shutdown_ret (os i).closesocket_ret (os i).socket_ret).2)
          k hk2 hfail2 hs2 hc2
        refine ⟨by rw [e1, hidx], ?_⟩
        intro c hmem
        rcases e2 c hmem with h | h
        · simp only [List.mem_append, List.mem_singleton] at h
          rcases h with ((h | h) | h) | h
          · exact Or.inl h
          · right; intro j hj; subst h; simp [Call.touches_candidate]; omega
          · right; intro j hj; subst h; simp [Call.touches_candidate]; omega
          · right; intro j hj
            rcases sock_close_calls _ _ _ c h with h | h <;> subst h <;> rfl
        · right; intro j hj; exact h j (by omega)

/-- Member `connect` when `::socket` gives candidate `k` a descriptor other than 0:
if the loop does not stop before candidate `k` (the earlier candidates got
descriptor 0 or their `::connect` returned non zero), the descriptor of candidate
`k` is valid and `::connect` on it returned 0, then `connect` returns without
throwing, the object holds that descriptor and `is_connected()` is true, and the
calls made contain no `::socket` and no `::connect` for any candidate after `k`. -/
theorem connect_uses_first_success (self : tcp_socket) (ept : endpoint) (os : Nat → Attempt)
    (k : Nat) (hk : k < ept.addr_info.length)
    (hfail : ∀ j, j < k → (os j).socket_ret = 0 ∨ (os j).connect_ret ≠ 0)
    (hopen : (os k).socket_ret ≠ 0) (hvalid : (os k).socket_ret ≠ INVALID_SOCKET)
    (hconn : (os k).connect_ret = 0) :
    (self.connect ept os).outcome = Outcome.returned () ∧
    (self.connect ept os).state.sock = (os k).socket_ret ∧
    (self.connect ept os).state.is_connected = true ∧
    ∀ j, k < j → ∀ c ∈ (self.connect ept os).trace, c.touches_candidate j = false := by
  have hfail2 : ∀ j, j < k → (os (0 + j)).socket_ret = 0 ∨ (os (0 + j)).connect_ret ≠ 0 := by
    intro j hj; simpa using hfail j hj
  obtain ⟨e1, e2⟩ := connect_loop_first_success os ept.addr_info 0 self.sock "" [] k hk hfail2
    (by simpa using hopen) (by simpa using hconn)
  simp only [Nat.zero_add] at e1 e2
  have hne : (connect_loop os ept.addr_info 0 self.sock "" []).1 ≠ 0 := by rw [e1]; exact hopen
  unfold tcp_socket.connect
  simp only [hne, if_false]
  refine ⟨trivial, e1, ?_, ?_⟩
  · simp [tcp_socket.is_connected, e1, hvalid]
  · intro j hj c hmem
    rcases e2 c hmem with h | h
    · simp at h
    · exact h j hj

end socketio

namespace socketio

/-- The first of two candidates refuses, the second accepts: `connect` returns,
holds descriptor 4, and touches no candidate after the second. -/
theorem connect_uses_first_success_witness :
    (tcp_socket.new.connect ept_two os_second_accepts).outcome = Outcome.returned () ∧
    (tcp_socket.new.connect ept_two os_second_accepts).state.sock = 4 ∧
    (tcp_socket.new.connect ept_two os_second_accepts).state.is_connected = true ∧
    ∀ j, 1 < j → ∀ c ∈ (tcp_socket.new.connect ept_two os_second_accepts).trace,
      c.touches_candidate j = false :=
  connect_uses_first_success tcp_socket.new ept_two os_second_accepts 1 (by decide)
    (by intro j hj; interval_cases j; right; decide) (by decide) (by decide) (by decide)

/-- C1. The code at the failing input.  One candidate: `::socket` succeeds with the
valid descriptor 0 and `::connect` on it would return 0.  The claim (k = 1) has
`connect` return without raising, connected on that descriptor; the code tests the
descriptor with `!sock`, takes 0 for a failure, never calls `::connect`, and throws
`socket_exception` "Unable to open socket".  Two candidates, the first as before,
the second accepting on descriptor 4: the code skips the first candidate and opens
a socket for, and connects to, the second, which the claim rules out. -/
theorem connect_skips_descriptor_zero :
    (tcp_socket.new.connect ept_one os_descriptor_zero).outcome
      = Outcome.threw (Exn.socket_exception "Unable to open socket") ∧
    (tcp_socket.new.connect ept_one os_descriptor_zero).trace = [Call.socket 0 2 1 6] ∧
    (tcp_socket.new.connect ept_two os_zero_then_four).outcome = Outcome.returned () ∧
    (tcp_socket.new.connect ept_two os_zero_then_four).state.sock = 4 ∧
    (tcp_socket.new.connect ept_two os_zero_then_four).trace =
      [Call.socket 0 10 1 6, Call.socket 1 2 1 6, Call.connect 4 1 101] := by
  decide

/-- When every candidate gets a non zero descriptor and refuses the connection, the
loop of `connect` ends with `sock` equal to `INVALID_SOCKET`. -/
theorem connect_loop_all_refused (os : Nat → Attempt) :
    ∀ (cands : List addrinfo) (i : Nat) (sock : Int) (err : String) (tr : List Call),
      cands ≠ [] →
      (∀ j, (os j).socket_ret ≠ 0 ∧ (os j).connect_ret ≠ 0) →
      (connect_loop os cands i sock err tr).1 = INVALID_SOCKET ∧
      (connect_loop os cands i sock err tr).2.1 = "Unable to connect" := by
  intro cands
  induction cands with
  | nil => intro i sock err tr h; exact absurd rfl h
  | cons cur rest ih =>
    intro i sock err tr _ hall
    have h1 := (hall i).1
    have h2 := (hall i).2
    simp only [connect_loop, h1, h2, if_false, if_true, ne_eq, not_false_eq_true]
    cases rest with
    | nil => simp [connect_loop]
    | cons c2 rest2 => exact ih (i + 1) _ _ _ (by simp) hall

/-- When every candidate gets a non zero descriptor and refuses the connection,
`connect` returns normally and leaves the object unconnected: the test before the
`throw` compares `sock` with 0, and `sock` is `INVALID_SOCKET`. -/
theorem connect_all_refused_returns (self : tcp_socket) (ept : endpoint) (os : Nat → Attempt)
    (hne : ept.addr_info ≠ [])
    (hall : ∀ j, (os j).socket_ret ≠ 0 ∧ (os j).connect_ret ≠ 0) :
    (self.connect ept os).outcome = Outcome.returned () ∧
    (self.connect ept os).state.is_connected = false := by
  obtain ⟨e1, _⟩ := connect_loop_all_refused os ept.addr_info 0 self.sock "" [] hne hall
  unfold tcp_socket.connect
  simp only [e1]
  simp [INVALID_SOCKET, tcp_socket.is_connected]

/-- C2. The code at the failing input: one candidate, `::socket` returns descriptor 3,
`::connect` returns -1.  The claim asks for a `socket_exception` with the message
"Unable to connect"; `connect` returns normally, having made the attempt, with
`sock` equal to `INVALID_SOCKET`. -/
theorem connect_all_fail_returns_normally :
    (tcp_socket.new.connect ept_one os_all_refuse).outcome = Outcome.returned () ∧
    (tcp_socket.new.connect ept_one os_all_refuse).state.sock = INVALID_SOCKET ∧
    (tcp_socket.new.connect ept_one os_all_refuse).state.is_connected = false ∧
    (tcp_socket.new.connect ept_one os_all_refuse).trace =
      [Call.socket 0 2 1 6, Call.connect 3 0 100, Call.shutdown 3] := by
  decide

end socketio

/-! ## Line framing -/

namespace socketio

/-- The single byte `read()` on an unsecured socket whose receive delivers `b`:
one `recv` of size 1, the object unchanged, and `b` returned. -/
theorem read_byte_delivers (USE_OPENSSL : Bool)
    (disconnect : tcp_socket → tcp_socket × List Call) (self : tcp_socket) (b : byte)
    (h : self.is_secure USE_OPENSSL = false) :
    self.read_byte USE_OPENSSL disconnect (delivers b) =
      ⟨self, [Call.recv self.sock 1 0], Outcome.returned b⟩ := by
  simp [tcp_socket.read_byte, tcp_socket.read, h, tcp_socket.uread, delivers, store]

/-- The loop of `readLine` on an unsecured socket fed the bytes of `s` (free of line
feeds), then a line feed, then anything: it returns what it had plus `s`, after one
`recv` per byte of `s` and one for the line feed. -/
theorem readLine_loop_delivered (USE_OPENSSL : Bool)
    (disconnect : tcp_socket → tcp_socket × List Call) (self : tcp_socket)
    (h : self.is_secure USE_OPENSSL = false) (more : List XferAnswer) :
    ∀ (s acc : List byte) (tr : List Call), (10 : byte) ∉ s →
      readLine_loop USE_OPENSSL disconnect (deliver_in_order (s ++ [10]) ++ more) self acc tr =
        ⟨self, tr ++ List.replicate (s.length + 1) (Call.recv self.sock 1 0),
          Outcome.returned (acc ++ s)⟩ := by
  intro s
  induction s with
  | nil =>
    intro acc tr _
    simp [deliver_in_order, readLine_loop, read_byte_delivers USE_OPENSSL disconnect self 10 h]
  | cons b rest ih =>
    intro acc tr hs
    have hb : b ≠ 10 := by
      intro hb; apply hs; simp [hb]
    have hrest : (10 : byte) ∉ rest := by
      intro hm; apply hs; simp [hm]
    have step := ih (acc ++ [b]) (tr ++ [Call.recv self.sock 1 0]) hrest
    simp only [deliver_in_order, List.map_append, List.map_cons, List.map_nil,
      List.cons_append] at step ⊢
    simp only [readLine_loop, read_byte_delivers USE_OPENSSL disconnect self b h, ne_eq, hb,
      not_false_eq_true, if_true]
    rw [step]
    simp [List.replicate_succ, List.append_assoc]

/-- What `writeLine` gives to `send` on an unsecured socket: the bytes of the
string and one line feed. -/
theorem writeLine_sent_bytes (USE_OPENSSL : Bool) (self : tcp_socket) (s : List byte)
    (a : XferAnswer) (h : self.is_secure USE_OPENSSL = false) :
    sent_bytes (self.writeLine USE_OPENSSL s a).trace = s ++ [10] := by
  have e : List.take (s.length + 1) (s ++ [(10 : byte), 0]) = s ++ [10] := by
    rw [List.take_append_eq_append_take]
    simp
  simp [tcp_socket.writeLine, tcp_socket.write, h, tcp_socket.uwrite, sent_bytes, handed_over,
    c_str, e]

/-- One direction of the line round trip, from `writer` to `reader`. -/
theorem line_one_way (USE_OPENSSL : Bool) (disconnect : tcp_socket → tcp_socket × List Call)
    (writer reader : tcp_socket) (s : List byte) (a : XferAnswer) (more : List XferAnswer)
    (hw : writer.is_secure USE_OPENSSL = false) (hr : reader.is_secure USE_OPENSSL = false)
    (hs : (10 : byte) ∉ s) :
    (reader.readLine USE_OPENSSL disconnect
      (deliver_in_order (sent_bytes (writer.writeLine USE_OPENSSL s a).trace) ++ more)).outcome
        = Outcome.returned s ∧
    ((reader.readLine USE_OPENSSL disconnect
      (deliver_in_order (sent_bytes (writer.writeLine USE_OPENSSL s a).trace) ++ more)).trace.filter
        Call.is_recv).length = s.length + 1 ∧
    (sent_bytes (writer.writeLine USE_OPENSSL s a).trace).length = s.length + 1 := by
  rw [writeLine_sent_bytes USE_OPENSSL writer s a hw]
  unfold tcp_socket.readLine
  rw [readLine_loop_delivered USE_OPENSSL disconnect reader hr more s [] [] hs]
  refine ⟨by simp, ?_, by simp⟩
  simp only [List.nil_append]
  rw [List.filter_eq_self.mpr]
  · simp
  · intro c hc
    rw [List.eq_of_mem_replicate hc]
    rfl

/-- C3. Line round trip on an unsecured connection.  For every string `s` without a
line feed byte and any two unsecured sockets `client` and `server`: when the bytes
`writeLine(s)` gave to `send` on one of them are delivered in order, one per single
byte read, to the other (whatever arrives after them), `readLine()` there returns
exactly `s`, after exactly `s.length + 1` receives, as many as bytes were sent; and
the same in the reverse direction. -/
theorem line_round_trip (USE_OPENSSL : Bool) (disconnect : tcp_socket → tcp_socket × List Call)
    (client server : tcp_socket) (s : List byte) (a : XferAnswer) (more : List XferAnswer)
    (hc : client.is_secure USE_OPENSSL = false) (hv : server.is_secure USE_OPENSSL = false)
    (hs : (10 : byte) ∉ s) :
    ((server.readLine USE_OPENSSL disconnect
      (deliver_in_order (sent_bytes (client.writeLine USE_OPENSSL s a).trace) ++ more)).outcome
        = Outcome.returned s ∧
     ((server.readLine USE_OPENSSL disconnect
      (deliver_in_order (sent_bytes (client.writeLine USE_OPENSSL s a).trace) ++ more)).trace.filter
        Call.is_recv).length = s.length + 1 ∧
     (sent_bytes (client.writeLine USE_OPENSSL s a).trace).length = s.length + 1) ∧
    ((client.readLine USE_OPENSSL disconnect
      (deliver_in_order (sent_bytes (server.writeLine USE_OPENSSL s a).trace) ++ more)).outcome
        = Outcome.returned s ∧
     ((client.readLine USE_OPENSSL disconnect
      (deliver_in_order (sent_bytes (server.writeLine USE_OPENSSL s a).trace) ++ more)).trace.filter
        Call.is_recv).length = s.length + 1 ∧
     (sent_bytes (server.writeLine USE_OPENSSL s a).trace).length = s.length + 1) :=
  ⟨line_one_way USE_OPENSSL disconnect client server s a more hc hv hs,
   line_one_way USE_OPENSSL disconnect server client s a more hv hc hs⟩

/-- Witness of C3: "BAR" between a socket on descriptor 3 and one on descriptor 5,
in a build without TLS, with further bytes arriving after the line. -/
theorem line_round_trip_witness :
    ((plain5.readLine false disconnect_nothing
      (deliver_in_order (sent_bytes (plain3.writeLine false BAR (delivers 0)).trace)
        ++ [delivers 70])).outcome = Outcome.returned BAR ∧
     ((plain5.readLine false disconnect_nothing
      (deliver_in_order (sent_bytes (plain3.writeLine false BAR (delivers 0)).trace)
        ++ [delivers 70])).trace.filter Call.is_recv).length = BAR.length + 1 ∧
     (sent_bytes (plain3.writeLine false BAR (delivers 0)).trace).length = BAR.length + 1) ∧
    ((plain3.readLine false disconnect_nothing
      (deliver_in_order (sent_bytes (plain5.writeLine false BAR (delivers 0)).trace)
        ++ [delivers 70])).outcome = Outcome.returned BAR ∧
     ((plain3.readLine false disconnect_nothing
      (deliver_in_order (sent_bytes (plain5.writeLine false BAR (delivers 0)).trace)
        ++ [delivers 70])).trace.filter Call.is_recv).length = BAR.length + 1 ∧
     (sent_bytes (plain5.writeLine false BAR (delivers 0)).trace).length = BAR.length + 1) :=
  line_round_trip false disconnect_nothing plain3 plain5 BAR (delivers 0) [delivers 70]
    (by decide) (by decide) (by decide)

/-- C4. The code at the failing input: on an unsecured socket the first read
delivers nothing (`recv` returns 0), the second delivers the byte 65, the third a
line feed.  The only byte received before the line feed is 65; `readLine` returns
the two bytes 0 and 65, because `read()` returns its zero initialised byte when
the receive stored nothing and `readLine` appends it.  The same with a first read
that fails (`recv` returns -1). -/
theorem readLine_appends_undelivered_byte :
    (plain3.readLine false disconnect_nothing
      [delivers_nothing, delivers 65, delivers 10]).outcome = Outcome.returned [0, 65] ∧
    (plain3.readLine false disconnect_nothing
      [recv_fails, delivers 65, delivers 10]).outcome = Outcome.returned [0, 65] ∧
    (plain3.read_byte false disconnect_nothing delivers_nothing).outcome
      = Outcome.returned 0 := by
  decide

end socketio

/-! ## What the write functions give to the transport -/

namespace socketio

end socketio

/-! ## Closing -/

namespace socketio

/-- The TLS part of `close` leaves both pointers null and nothing else changed. -/
theorem close_tls_state (self : tcp_socket) :
    (close_tls self).1 = ⟨self.sock, self.ept_, 0, 0⟩ := by
  unfold close_tls
  cases self with
  | mk sock ept ssl ctx =>
    by_cases h1 : ssl = 0 <;> by_cases h2 : ctx = 0 <;> simp [h1, h2]

/-- The calls of the TLS part of `close`. -/
theorem close_tls_calls (self : tcp_socket) :
    (close_tls self).2 =
      (if self.ssl ≠ 0 then [Call.SSL_shutdown self.ssl, Call.SSL_free self.ssl] else [])
        ++ (if self.ssl_ctx ≠ 0 then [Call.SSL_CTX_free self.ssl_ctx] else []) := by
  unfold close_tls
  by_cases h1 : self.ssl = 0 <;> by_cases h2 : self.ssl_ctx = 0 <;> simp [h1, h2]

/-- The TLS part of `close` never calls `closesocket`. -/
theorem close_tls_no_closesocket (self : tcp_socket) (fd : Int) :
    Call.closesocket fd ∉ (close_tls self).2 := by
  rw [close_tls_calls]
  by_cases h1 : self.ssl = 0 <;> by_cases h2 : self.ssl_ctx = 0 <;> simp [h1, h2]

/-- The object after `close`: the descriptor is `INVALID_SOCKET` unless it was 0,
the endpoint is empty, and in a TLS build both pointers are null. -/
theorem close_state (USE_OPENSSL : Bool) (self : tcp_socket) (r c : Int) :
    (self.close USE_OPENSSL r c).state =
      ⟨if self.sock ≠ 0 then INVALID_SOCKET else self.sock, endpoint.empty,
        if USE_OPENSSL then 0 else self.ssl, if USE_OPENSSL then 0 else self.ssl_ctx⟩ := by
  unfold tcp_socket.close
  cases USE_OPENSSL
  · by_cases h0 : self.sock = 0 <;> simp [h0]
  · by_cases h0 : self.sock = 0 <;> simp [h0, close_tls_state]

/-- The calls of `close`: the TLS part in a TLS build, then `sock_close` unless the
descriptor is 0. -/
theorem close_trace (USE_OPENSSL : Bool) (self : tcp_socket) (r c : Int) :
    (self.close USE_OPENSSL r c).trace =
      (if USE_OPENSSL then (close_tls self).2 else [])
        ++ (if self.sock ≠ 0 then (sock_close r c self.sock).2 else []) := by
  unfold tcp_socket.close
  cases USE_OPENSSL
  · by_cases h0 : self.sock = 0 <;> simp [h0]
  · by_cases h0 : self.sock = 0 <;> simp [h0, close_tls_state]

/-- Closing twice a socket whose descriptor is neither 0 nor `INVALID_SOCKET`:
both calls return, the second leaves the object as the first left it (unconnected,
unsecured), the second call invokes `closesocket` on no descriptor other than
`INVALID_SOCKET`, and the descriptor of the socket is given to `closesocket` at
most once over the two calls. -/
theorem close_twice_nonzero (USE_OPENSSL : Bool) (self : tcp_socket) (r1 c1 r2 c2 : Int)
    (h0 : self.sock ≠ 0) (hconn : self.is_connected = true) :
    (self.close USE_OPENSSL r1 c1).outcome = Outcome.returned () ∧
    ((self.close USE_OPENSSL r1 c1).state.close USE_OPENSSL r2 c2).outcome
      = Outcome.returned () ∧
    ((self.close USE_OPENSSL r1 c1).state.close USE_OPENSSL r2 c2).state
      = (self.close USE_OPENSSL r1 c1).state ∧
    (self.close USE_OPENSSL r1 c1).state.is_connected = false ∧
    (self.close USE_OPENSSL r1 c1).state.is_secure USE_OPENSSL = false ∧
    (∀ fd, fd ≠ INVALID_SOCKET → Call.closesocket fd ∉
      ((self.close USE_OPENSSL r1 c1).state.close USE_OPENSSL r2 c2).trace) ∧
    ((self.close USE_OPENSSL r1 c1).trace ++
      ((self.close USE_OPENSSL r1 c1).state.close USE_OPENSSL r2 c2).trace).count
        (Call.closesocket self.sock) ≤ 1 := by
  have hv : self.sock ≠ INVALID_SOCKET := by
    simpa [tcp_socket.is_connected] using hconn
  have hinv : INVALID_SOCKET ≠ (0 : Int) := by decide
  have hst : (self.close USE_OPENSSL r1 c1).state =
      ⟨INVALID_SOCKET, endpoint.empty, if USE_OPENSSL then 0 else self.ssl,
        if USE_OPENSSL then 0 else self.ssl_ctx⟩ := by
    rw [close_state]; simp [h0]
  have hsec : (self.close USE_OPENSSL r1 c1).state.is_secure USE_OPENSSL = false := by
    rw [hst]; cases USE_OPENSSL <;> simp [tcp_socket.is_secure]
  have htr2 : ((self.close USE_OPENSSL r1 c1).state.close USE_OPENSSL r2 c2).trace =
      (sock_close r2 c2 INVALID_SOCKET).2 := by
    rw [close_trace, hst]
    cases USE_OPENSSL <;> simp [hinv, close_tls_calls]
  have hno2 : ∀ fd, fd ≠ INVALID_SOCKET → Call.closesocket fd ∉
      ((self.close USE_OPENSSL r1 c1).state.close USE_OPENSSL r2 c2).trace := by
    intro fd hfd hmem
    rw [htr2] at hmem
    rcases sock_close_calls _ _ _ _ hmem with h | h
    · cases h
    · injection h with h; exact hfd h
  refine ⟨rfl, rfl, ?_, ?_, hsec, hno2, ?_⟩
  · rw [close_state, hst]
    cases USE_OPENSSL <;> simp [hinv]
  · rw [hst]; simp [tcp_socket.is_connected]
  · rw [List.count_append, List.count_eq_zero_of_not_mem (hno2 self.sock hv), close_trace,
      List.count_append]
    have ht : List.count (Call.closesocket self.sock)
        (if USE_OPENSSL then (close_tls self).2 else []) = 0 := by
      apply List.count_eq_zero_of_not_mem
      cases USE_OPENSSL
      · simp
      · simpa using close_tls_no_closesocket self self.sock
    rw [ht]
    simp only [h0, ne_eq, not_false_eq_true, if_true]
    unfold sock_close
    by_cases hr : r1 = 0 <;> simp [hr, List.count_cons]

end socketio

namespace socketio

/-- C6. The code at the failing input: a socket on descriptor 0, as the private
constructor used by `accept` builds it when `::accept` returns 0.  It is connected;
`close()` compares the descriptor with 0, makes no call at all, and leaves the
descriptor field 0, so after the first and after the second `close()` the object
still reports `is_connected()`, whereas the claim has it unconnected after the
first call.  The same in the build with TLS for a secured socket on descriptor 0. -/
theorem close_twice_keeps_descriptor_zero :
    plain0.is_connected = true ∧
    (plain0.close false 0 0).state.is_connected = true ∧
    (plain0.close false 0 0).state.sock = 0 ∧
    (plain0.close false 0 0).trace = [] ∧
    ((plain0.close false 0 0).state.close false 0 0).state.is_connected = true ∧
    ((plain0.close false 0 0).state.close false 0 0).trace = [] ∧
    (secured0.close true 0 0).state.is_connected = true ∧
    ((secured0.close true 0 0).state.close true 0 0).state.is_connected = true := by
  decide

/-! ## The TLS handshake -/

/-- C7. In a build without TLS support, for every object and whatever the TLS
library would answer: `ssl_handshake()` makes no call and throws `ssl_exception`,
the object is exactly what it was, `is_secure()` is false before and after, and
the buffer forms of `read` and `write` on the object afterwards are the plaintext
`uread` and `uwrite`. -/
theorem ssl_handshake_without_tls (self : tcp_socket) (tls : HandshakeAnswers) :
    (self.ssl_handshake false tls).outcome = Outcome.threw (Exn.ssl_exception
      "To use the ssl_handshake function you need to #define USE_OPENSSL") ∧
    (self.ssl_handshake false tls).trace = [] ∧
    (self.ssl_handshake false tls).state = self ∧
    self.is_secure false = false ∧
    (self.ssl_handshake false tls).state.is_secure false = false ∧
    (∀ (disconnect : tcp_socket → tcp_socket × List Call) (buffer : List byte) (size : Nat)
        (flags : Int) (a : XferAnswer),
      (self.ssl_handshake false tls).state.read false disconnect buffer size flags a
        = self.uread buffer size flags a ∧
      (self.ssl_handshake false tls).state.write false buffer size flags a
        = self.uwrite buffer size flags a) := by
  refine ⟨rfl, rfl, rfl, rfl, rfl, ?_⟩
  intro disconnect buffer size flags a
  exact ⟨rfl, rfl⟩

end socketio

namespace socketio

/-- The handshake loop passes over a run of transient answers, making for each one
`SSL_connect`, `SSL_get_error` and a sleep, and leaves the object unchanged. -/
theorem handshake_loop_transients (e : String) (rest : List (Int × Int)) (self : tcp_socket) :
    ∀ (pre : List (Int × Int)) (tr : List Call),
      (∀ x ∈ pre, x.1 ≠ 1 ∧ (x.2 = SSL_ERROR_WANT_READ ∨ x.2 = SSL_ERROR_WANT_WRITE)) →
      handshake_loop e (pre ++ rest) self tr =
        handshake_loop e rest self (tr ++ transient_calls self.ssl pre) := by
  intro pre
  induction pre with
  | nil => intro tr _; simp [transient_calls]
  | cons x more ih =>
    intro tr h
    obtain ⟨h1, h2⟩ := h x (by simp)
    have hmore : ∀ y ∈ more, y.1 ≠ 1 ∧ (y.2 = SSL_ERROR_WANT_READ ∨ y.2 = SSL_ERROR_WANT_WRITE) :=
      fun y hy => h y (by simp [hy])
    obtain ⟨error, code⟩ := x
    simp only at h1 h2
    simp only [List.cons_append, handshake_loop, h1, if_false, h2, if_true]
    have step := ih (tr ++ [Call.SSL_connect self.ssl] ++ [Call.SSL_get_error self.ssl error]
      ++ [Call.sleep_for 200]) hmore
    simp only [List.append_eq] at step ⊢
    rw [step]
    simp [transient_calls, List.append_assoc]

/-- A run of transient answers contains one `SSL_connect` per answer. -/
theorem transient_calls_steps (ssl : Nat) (pre : List (Int × Int)) :
    ((transient_calls ssl pre).filter Call.is_SSL_connect).length = pre.length := by
  induction pre with
  | nil => rfl
  | cons x more ih =>
    have : transient_calls ssl (x :: more) =
        [Call.SSL_connect ssl, Call.SSL_get_error ssl x.1, Call.sleep_for 200]
          ++ transient_calls ssl more := by
      simp [transient_calls]
    rw [this, List.filter_append, List.length_append, ih]
    simp [Call.is_SSL_connect, List.filter]
    omega

/-- A run of transient answers frees nothing. -/
theorem transient_calls_free_nothing (ssl : Nat) (pre : List (Int × Int)) (c : Call)
    (h : c ∈ transient_calls ssl pre) :
    (∀ p, c ≠ Call.SSL_free p) ∧ (∀ p, c ≠ Call.SSL_CTX_free p) := by
  simp only [transient_calls, List.mem_flatMap, List.mem_cons, List.mem_singleton,
    List.not_mem_nil, or_false] at h
  obtain ⟨x, _, hx | hx | hx⟩ := h <;> subst hx <;>
    exact And.intro (fun _ hc => by cases hc) (fun _ hc => by cases hc)

/-- The handshake in a TLS build up to the terminal answer of `SSL_connect`, when
context, session and binding were created and `pre` is a run of transient answers. -/
theorem ssl_handshake_run (self : tcp_socket) (tls : HandshakeAnswers)
    (pre rest : List (Int × Int)) (last : Int × Int)
    (hctx : tls.ctx ≠ 0) (hssl : tls.ssl ≠ 0) (hfd : tls.set_fd ≠ 0)
    (hsteps : tls.steps = pre ++ last :: rest)
    (hpre : ∀ x ∈ pre, x.1 ≠ 1 ∧ (x.2 = SSL_ERROR_WANT_READ ∨ x.2 = SSL_ERROR_WANT_WRITE)) :
    self.ssl_handshake true tls =
      handshake_loop tls.ssl_error_string (last :: rest) ⟨self.sock, self.ept_, tls.ssl, tls.ctx⟩
        ([Call.SSL_CTX_new, Call.SSL_new tls.ctx, Call.SSL_set_fd tls.ssl self.sock]
          ++ transient_calls tls.ssl pre) := by
  unfold tcp_socket.ssl_handshake
  simp only [if_true, hctx, hssl, hfd, if_false, hsteps]
  rw [handshake_loop_transients _ _ _ pre _ hpre]
  simp

end socketio

namespace socketio

/-- C8. `ssl_handshake()` in a TLS build on a connected socket, when context,
session and binding were created and `SSL_connect` reports `pre.length` transient
want-read or want-write conditions and then the terminal answer `last`:
(a) if `last` is success, the call returns after exactly `pre.length + 1` calls of
`SSL_connect`, `is_secure()` is true, the object holds the session and the context,
and neither was freed;
(b) if `last` is a failure other than want-read or want-write, the call throws
`ssl_exception` after `pre.length + 1` calls of `SSL_connect`, session and context
were both freed and both pointers are null, the descriptor is unchanged, and the
socket is connected and not secure. -/
theorem ssl_handshake_after_transients (self : tcp_socket) (tls : HandshakeAnswers)
    (pre rest : List (Int × Int)) (last : Int × Int)
    (hconn : self.is_connected = true)
    (hctx : tls.ctx ≠ 0) (hssl : tls.ssl ≠ 0) (hfd : tls.set_fd ≠ 0)
    (hsteps : tls.steps = pre ++ last :: rest)
    (hpre : ∀ x ∈ pre, x.1 ≠ 1 ∧ (x.2 = SSL_ERROR_WANT_READ ∨ x.2 = SSL_ERROR_WANT_WRITE)) :
    (last.1 = 1 →
      (self.ssl_handshake true tls).outcome = Outcome.returned () ∧
      ((self.ssl_handshake true tls).trace.filter Call.is_SSL_connect).length
        = pre.length + 1 ∧
      (self.ssl_handshake true tls).state.is_secure true = true ∧
      (self.ssl_handshake true tls).state.ssl = tls.ssl ∧
      (self.ssl_handshake true tls).state.ssl_ctx = tls.ctx ∧
      (self.ssl_handshake true tls).state.sock = self.sock ∧
      (∀ p, Call.SSL_free p ∉ (self.ssl_handshake true tls).trace) ∧
      (∀ p, Call.SSL_CTX_free p ∉ (self.ssl_handshake true tls).trace)) ∧
    (last.1 ≠ 1 → last.2 ≠ SSL_ERROR_WANT_READ → last.2 ≠ SSL_ERROR_WANT_WRITE →
      (self.ssl_handshake true tls).outcome = Outcome.threw (Exn.ssl_exception
        ("Error in SSL handshake: " ++ tls.ssl_error_string)) ∧
      ((self.ssl_handshake true tls).trace.filter Call.is_SSL_connect).length
        = pre.length + 1 ∧
      Call.SSL_free tls.ssl ∈ (self.ssl_handshake true tls).trace ∧
      Call.SSL_CTX_free tls.ctx ∈ (self.ssl_handshake true tls).trace ∧
      (self.ssl_handshake true tls).state.ssl = 0 ∧
      (self.ssl_handshake true tls).state.ssl_ctx = 0 ∧
      (self.ssl_handshake true tls).state.sock = self.sock ∧
      (self.ssl_handshake true tls).state.is_connected = true ∧
      (self.ssl_handshake true tls).state.is_secure true = false) := by
  rw [ssl_handshake_run self tls pre rest last hctx hssl hfd hsteps hpre]
  obtain ⟨error, code⟩ := last
  have hcount := transient_calls_steps tls.ssl pre
  constructor
  · intro h1
    simp only at h1
    subst h1
    simp only [handshake_loop, if_true]
    refine ⟨trivial, ?_, ?_, trivial, trivial, trivial, ?_, ?_⟩
    · simp only [List.filter_append, List.length_append, hcount]
      simp [Call.is_SSL_connect, List.filter]
    · simp [tcp_socket.is_secure, hssl]
    · intro p hmem
      simp only [List.mem_append, List.mem_cons, List.mem_singleton, List.not_mem_nil,
        or_false] at hmem
      rcases hmem with ((h | h | h) | h) | h
      · cases h
      · cases h
      · cases h
      · exact (transient_calls_free_nothing _ _ _ h).1 p rfl
      · cases h
    · intro p hmem
      simp only [List.mem_append, List.mem_cons, List.mem_singleton, List.not_mem_nil,
        or_false] at hmem
      rcases hmem with ((h | h | h) | h) | h
      · cases h
      · cases h
      · cases h
      · exact (transient_calls_free_nothing _ _ _ h).2 p rfl
      · cases h
  · intro h1 h2 h3
    simp only at h1 h2 h3
    simp only [handshake_loop, h1, if_false, h2, h3, or_self]
    refine ⟨?_, ?_, ?_, ?_, trivial, trivial, trivial, ?_, ?_⟩
    · simp [get_ssl_error]
    · simp only [List.filter_append, List.length_append, hcount]
      simp [Call.is_SSL_connect, List.filter]
    · simp
    · simp
    · simpa [tcp_socket.is_connected] using hconn
    · simp [tcp_socket.is_secure]

/-- Witness of C8: on a socket on descriptor 3, two transient conditions and then
success secure the socket after three handshake steps; one transient condition and
then `SSL_ERROR_SSL` throws after two steps with both pointers null. -/
theorem ssl_handshake_after_transients_witness :
    ((plain3.ssl_handshake true tls_two_transients_then_success).outcome = Outcome.returned () ∧
      ((plain3.ssl_handshake true tls_two_transients_then_success).trace.filter
        Call.is_SSL_connect).length = 3 ∧
      (plain3.ssl_handshake true tls_two_transients_then_success).state.is_secure true = true) ∧
    ((plain3.ssl_handshake true tls_transient_then_failure).outcome = Outcome.threw
        (Exn.ssl_exception "Error in SSL handshake: error:0A000086") ∧
      (plain3.ssl_handshake true tls_transient_then_failure).state.ssl = 0 ∧
      (plain3.ssl_handshake true tls_transient_then_failure).state.ssl_ctx = 0 ∧
      (plain3.ssl_handshake true tls_transient_then_failure).state.is_connected = true) := by
  have ha := (ssl_handshake_after_transients plain3 tls_two_transients_then_success
    [(-1, SSL_ERROR_WANT_READ), (-1, SSL_ERROR_WANT_WRITE)] [] (1, 0)
    (by decide) (by decide) (by decide) (by decide) rfl (by decide)).1 rfl
  have hb := (ssl_handshake_after_transients plain3 tls_transient_then_failure
    [(-1, SSL_ERROR_WANT_READ)] [] (-1, SSL_ERROR_SSL)
    (by decide) (by decide) (by decide) (by decide) rfl (by decide)).2
    (by decide) (by decide) (by decide)
  exact ⟨⟨ha.1, ha.2.1, ha.2.2.1⟩, ⟨hb.1, hb.2.2.2.2.1, hb.2.2.2.2.2.1, hb.2.2.2.2.2.2.2.1⟩⟩

end socketio

/-! ## The secure transfer paths -/

namespace socketio

/-- A negative result of `SSL_read` that fits an `int` is positive as a `size_t` and
comes back unchanged from the conversion to `int`. -/
theorem negative_read_size (ret : Int) (hneg : ret < 0) (hmin : -(2 ^ 31) ≤ ret) :
    to_size_t ret > 0 ∧ to_int (to_size_t ret) = ret := by
  unfold to_int to_size_t
  have e : (ret % (2 ^ 64 : Int)).toNat = (ret + 2 ^ 64).toNat := by
    congr 1
    omega
  rw [e]
  constructor
  · omega
  · have hm : (ret + 2 ^ 64).toNat % 2 ^ 32 = (ret + 2 ^ 32).toNat := by omega
    rw [hm]
    split_ifs with h
    · omega
    · omega

/-- When `SSL_read` returns a negative value, `sread` returns that value: it makes
no call of `SSL_get_error`, does not touch the object and throws nothing, whatever
the TLS error is. -/
theorem sread_negative_returns (disconnect : tcp_socket → tcp_socket × List Call)
    (self : tcp_socket) (buffer : List byte) (size : Nat) (a : XferAnswer)
    (hneg : a.ret < 0) (hmin : -(2 ^ 31) ≤ a.ret) :
    self.sread true disconnect buffer size a =
      ⟨self, [Call.SSL_read self.ssl (to_int size)], Outcome.returned (a.ret, buffer)⟩ := by
  obtain ⟨h1, h2⟩ := negative_read_size a.ret hneg hmin
  have h3 : ¬ (0 < a.ret) := by omega
  unfold tcp_socket.sread
  simp only [if_true, h1, h2, h3, if_false]

/-- C9. The code at the failing input: a secured socket, `SSL_read` returns -1 and
`SSL_get_error` would report `SSL_ERROR_SSL`.  The claim has `ssl_exception` thrown;
`sread`, and `read` that dispatches to it, return -1 after the single call
`SSL_read`, because -1 held in the `size_t` variable `read_size` passes the test
`read_size > 0`.  With `SSL_ERROR_WANT_READ` the claim has 0 returned and the code
returns -1 as well. -/
theorem sread_failure_skips_error_code :
    secured3.is_secure true = true ∧
    secured3.sread true disconnect_nothing [0] 1 (tls_read_fails SSL_ERROR_SSL) =
      ⟨secured3, [Call.SSL_read 1 1], Outcome.returned (-1, [0])⟩ ∧
    secured3.read true disconnect_nothing [0] 1 0 (tls_read_fails SSL_ERROR_SSL) =
      ⟨secured3, [Call.SSL_read 1 1], Outcome.returned (-1, [0])⟩ ∧
    secured3.sread true disconnect_nothing [0] 1 (tls_read_fails SSL_ERROR_WANT_READ) =
      ⟨secured3, [Call.SSL_read 1 1], Outcome.returned (-1, [0])⟩ := by
  refine ⟨by decide, ?_, ?_, ?_⟩
  · exact sread_negative_returns disconnect_nothing secured3 [0] 1 (tls_read_fails SSL_ERROR_SSL)
      (by decide) (by decide)
  · have h : secured3.is_secure true = true := by decide
    unfold tcp_socket.read
    rw [if_pos h]
    exact sread_negative_returns disconnect_nothing secured3 [0] 1 (tls_read_fails SSL_ERROR_SSL)
      (by decide) (by decide)
  · exact sread_negative_returns disconnect_nothing secured3 [0] 1
      (tls_read_fails SSL_ERROR_WANT_READ) (by decide) (by decide)

end socketio

namespace socketio

/-- C10. The code at the failing input: a secured socket on descriptor 3,
`SSL_write` returns 0, the TLS error is a clean closure by the peer, and the
`shutdown` made by the `close()` of this branch returns -1 (the peer is gone).  The
session and the context are freed, the exception of the branch is thrown and the
descriptor field becomes `INVALID_SOCKET`, but `closesocket` is never called:
descriptor 3 is not released, where the claim has it released. -/
theorem swrite_peer_closed_leaks_descriptor :
    secured3.is_secure true = true ∧
    (secured3.swrite true BAR 3 (tls_write_peer_closed (-1))).outcome
      = Outcome.threw (sock_exception "The socket disconnected") ∧
    (secured3.swrite true BAR 3 (tls_write_peer_closed (-1))).trace
      = [Call.SSL_write 1 BAR 3, Call.SSL_get_error 1 0, Call.SSL_shutdown 1,
          Call.SSL_free 1, Call.SSL_CTX_free 2, Call.shutdown 3] ∧
    (secured3.swrite true BAR 3 (tls_write_peer_closed (-1))).trace.filter
      Call.is_closesocket = [] ∧
    (secured3.swrite true BAR 3 (tls_write_peer_closed (-1))).state.sock = INVALID_SOCKET := by
  decide

/-- What `swrite` does on a clean closure by the peer, on a secured socket whose
descriptor is not 0: the session is shut down and freed, the context is freed when
there is one, both pointers are null, `shutdown` is called on the descriptor and
`closesocket` too when `shutdown` returned 0, the descriptor field is
`INVALID_SOCKET`, `is_connected()` and `is_secure()` are false, and the exception
of the branch is thrown with the message "The socket disconnected"; no byte count
is returned. -/
theorem swrite_peer_closed_closes_and_throws (self : tcp_socket) (buffer : List byte)
    (size : Nat) (a : XferAnswer)
    (hsec : self.is_secure true = true) (hsock : self.sock ≠ 0)
    (hret : a.ret ≤ 0) (hzero : a.ssl_error = SSL_ERROR_ZERO_RETURN) :
    (self.swrite true buffer size a).outcome
      = Outcome.threw (sock_exception "The socket disconnected") ∧
    Call.SSL_shutdown self.ssl ∈ (self.swrite true buffer size a).trace ∧
    Call.SSL_free self.ssl ∈ (self.swrite true buffer size a).trace ∧
    (self.ssl_ctx ≠ 0 → Call.SSL_CTX_free self.ssl_ctx ∈ (self.swrite true buffer size a).trace) ∧
    Call.shutdown self.sock ∈ (self.swrite true buffer size a).trace ∧
    (a.shutdown_ret = 0 → Call.closesocket self.sock ∈ (self.swrite true buffer size a).trace) ∧
    (a.shutdown_ret ≠ 0 → ∀ fd, Call.closesocket fd ∉ (self.swrite true buffer size a).trace) ∧
    (self.swrite true buffer size a).state.ssl = 0 ∧
    (self.swrite true buffer size a).state.ssl_ctx = 0 ∧
    (self.swrite true buffer size a).state.sock = INVALID_SOCKET ∧
    (self.swrite true buffer size a).state.is_connected = false ∧
    (self.swrite true buffer size a).state.is_secure true = false := by
  have hssl : self.ssl ≠ 0 := by
    simpa [tcp_socket.is_secure] using hsec
  have hnot : ¬ (a.ret > 0) := by omega
  have hst := close_state true self a.shutdown_ret a.closesocket_ret
  have htr := close_trace true self a.shutdown_ret a.closesocket_ret
  simp only [if_true, hsock, ne_eq, not_false_eq_true, close_tls_calls, hssl] at hst htr
  unfold tcp_socket.swrite
  simp only [if_true, hnot, if_false, hzero, hst, htr]
  refine ⟨trivial, by simp, by simp, ?_, ?_, ?_, ?_, trivial, trivial, trivial, ?_, ?_⟩
  · intro hctx; simp [hctx]
  · unfold sock_close
    by_cases hr : a.shutdown_ret = 0 <;> simp [hr]
  · intro hr
    unfold sock_close
    simp [hr]
  · intro hr fd
    unfold sock_close
    by_cases hctx : self.ssl_ctx = 0 <;> simp [hr, hctx]
  · simp [tcp_socket.is_connected]
  · simp [tcp_socket.is_secure]

/-- The secured socket on descriptor 3, a clean closure by the peer, `shutdown`
returning 0: the connection is closed and the descriptor released. -/
theorem swrite_peer_closed_closes_and_throws_at_secured3 :
    (secured3.swrite true BAR 3 (tls_write_peer_closed 0)).outcome
      = Outcome.threw (sock_exception "The socket disconnected") ∧
    Call.closesocket 3 ∈ (secured3.swrite true BAR 3 (tls_write_peer_closed 0)).trace ∧
    (secured3.swrite true BAR 3 (tls_write_peer_closed 0)).state.is_connected = false ∧
    (secured3.swrite true BAR 3 (tls_write_peer_closed 0)).state.is_secure true = false := by
  have h := swrite_peer_closed_closes_and_throws secured3 BAR 3 (tls_write_peer_closed 0)
    (by decide) (by decide) (by decide) rfl
  exact ⟨h.1, h.2.2.2.2.2.1 rfl, h.2.2.2.2.2.2.2.2.2.2.1, h.2.2.2.2.2.2.2.2.2.2.2⟩

end socketio

namespace socketio

/-- C11. `swrite` on a secured socket, for every buffer and size: when `SSL_write`
fails and the TLS error is want-read or want-write, `swrite` calls `SSL_write`
exactly once (then `SSL_get_error` and a sleep, no second write), throws nothing,
leaves the object as it was, still connected if it was and still secured, and
returns 0; when `SSL_write` succeeds with `n > 0` it returns `n`, again after a
single `SSL_write` and with the object unchanged.  The buffer form of `write`
reaches `swrite` on this socket. -/
theorem swrite_transient_returns_zero (self : tcp_socket) (buffer : List byte) (size : Nat)
    (flags : Int) (a : XferAnswer) (hsec : self.is_secure true = true) :
    self.write true buffer size flags a = self.swrite true buffer size a ∧
    (a.ret ≤ 0 → (a.ssl_error = SSL_ERROR_WANT_READ ∨ a.ssl_error = SSL_ERROR_WANT_WRITE) →
      (self.swrite true buffer size a).outcome = Outcome.returned 0 ∧
      (self.swrite true buffer size a).trace =
        [Call.SSL_write self.ssl buffer (to_int size), Call.SSL_get_error self.ssl a.ret,
          Call.sleep_for 200] ∧
      ((self.swrite true buffer size a).trace.filter Call.is_SSL_write).length = 1 ∧
      (self.swrite true buffer size a).state = self ∧
      (self.swrite true buffer size a).state.is_connected = self.is_connected ∧
      (self.swrite true buffer size a).state.is_secure true = true) ∧
    (a.ret > 0 →
      (self.swrite true buffer size a).outcome = Outcome.returned a.ret ∧
      (self.swrite true buffer size a).trace
        = [Call.SSL_write self.ssl buffer (to_int size)] ∧
      (self.swrite true buffer size a).state = self) := by
  refine ⟨?_, ?_, ?_⟩
  · unfold tcp_socket.write
    rw [if_pos hsec]
  · intro hret hcode
    have hnot : ¬ (a.ret > 0) := by omega
    have hz : a.ssl_error ≠ SSL_ERROR_ZERO_RETURN := by
      rcases hcode with h | h <;> rw [h] <;> decide
    unfold tcp_socket.swrite
    simp only [if_true, hnot, if_false, hz, hcode]
    exact ⟨trivial, by simp, by simp [Call.is_SSL_write, List.filter], trivial, trivial, hsec⟩
  · intro hret
    unfold tcp_socket.swrite
    simp only [if_true, hret]
    exact ⟨trivial, trivial, trivial⟩

/-- Witness of C11: on the secured socket on descriptor 3, a write that meets
want-write returns 0 after one `SSL_write`, and a write of three accepted bytes
returns 3. -/
theorem swrite_transient_returns_zero_witness :
    ((secured3.swrite true BAR 3 (tls_write_fails SSL_ERROR_WANT_WRITE)).outcome
        = Outcome.returned 0 ∧
      ((secured3.swrite true BAR 3 (tls_write_fails SSL_ERROR_WANT_WRITE)).trace.filter
        Call.is_SSL_write).length = 1 ∧
      (secured3.swrite true BAR 3 (tls_write_fails SSL_ERROR_WANT_WRITE)).state = secured3) ∧
    (secured3.swrite true BAR 3 (tls_write_accepts 3)).outcome = Outcome.returned 3 := by
  have h := swrite_transient_returns_zero secured3 BAR 3 0
    (tls_write_fails SSL_ERROR_WANT_WRITE) (by decide)
  have h2 := swrite_transient_returns_zero secured3 BAR 3 0 (tls_write_accepts 3) (by decide)
  have ha := h.2.1 (by decide) (Or.inr rfl)
  exact ⟨⟨ha.1, ha.2.2.1, ha.2.2.2.1⟩, (h2.2.2 (by decide)).1⟩

end socketio

/-! ## The lifecycle of one object -/

namespace socketio

/-- The handshake loop never changes the descriptor. -/
theorem handshake_loop_sock (e : String) :
    ∀ (steps : List (Int × Int)) (self : tcp_socket) (tr : List Call),
      (handshake_loop e steps self tr).state.sock = self.sock := by
  intro steps
  induction steps with
  | nil => intro self tr; rfl
  | cons x rest ih =>
    intro self tr
    obtain ⟨error, code⟩ := x
    unfold handshake_loop
    by_cases h1 : error = 1
    · simp [h1]
    · by_cases h2 : code = SSL_ERROR_WANT_READ ∨ code = SSL_ERROR_WANT_WRITE
      · simp only [h1, if_false, h2, if_true]
        exact ih self _
      · simp only [h1, if_false, h2]

/-- Member `ssl_handshake` never changes the descriptor, however it ends. -/
theorem ssl_handshake_sock (USE_OPENSSL : Bool) (self : tcp_socket) (tls : HandshakeAnswers) :
    (self.ssl_handshake USE_OPENSSL tls).state.sock = self.sock := by
  unfold tcp_socket.ssl_handshake
  cases USE_OPENSSL
  · rfl
  · simp only [if_true]
    by_cases h1 : tls.ctx = 0
    · simp [h1]
    · by_cases h2 : tls.ssl = 0
      · simp [h1, h2]
      · by_cases h3 : tls.set_fd = 0
        · simp [h1, h2, h3]
        · simp only [h1, h2, h3, if_false]
          rw [handshake_loop_sock]

/-- Member `close` on an object whose descriptor is `INVALID_SOCKET` leaves it so. -/
theorem close_keeps_invalid (USE_OPENSSL : Bool) (self : tcp_socket) (r c : Int)
    (h : self.sock = INVALID_SOCKET) :
    (self.close USE_OPENSSL r c).state.sock = INVALID_SOCKET := by
  rw [close_state]
  simp [h]

/-- The buffer form of `write` on an object whose descriptor is `INVALID_SOCKET`
leaves it so, however it ends. -/
theorem write_keeps_invalid (USE_OPENSSL : Bool) (self : tcp_socket) (buffer : List byte)
    (size : Nat) (flags : Int) (a : XferAnswer) (h : self.sock = INVALID_SOCKET) :
    (self.write USE_OPENSSL buffer size flags a).state.sock = INVALID_SOCKET := by
  have hc := close_keeps_invalid true self a.shutdown_ret a.closesocket_ret h
  simp only [tcp_socket.write, tcp_socket.swrite, tcp_socket.uwrite]
  split_ifs <;> first | exact h | exact hc

/-- The buffer form of `read` on an object whose descriptor is `INVALID_SOCKET`
leaves it so, however it ends, when `disconnect` does. -/
theorem read_keeps_invalid (USE_OPENSSL : Bool)
    (disconnect : tcp_socket → tcp_socket × List Call)
    (hdis : ∀ s : tcp_socket, s.sock = INVALID_SOCKET → (disconnect s).1.sock = INVALID_SOCKET)
    (self : tcp_socket) (buffer : List byte) (size : Nat) (flags : Int) (a : XferAnswer)
    (h : self.sock = INVALID_SOCKET) :
    (self.read USE_OPENSSL disconnect buffer size flags a).state.sock = INVALID_SOCKET := by
  have hd := hdis self h
  simp only [tcp_socket.read, tcp_socket.sread, tcp_socket.uread]
  split_ifs <;> first | exact h | exact hd

/-- Every public operation other than `connect` leaves an object whose descriptor
is `INVALID_SOCKET` with that descriptor. -/
theorem apply_keeps_invalid (USE_OPENSSL : Bool)
    (disconnect : tcp_socket → tcp_socket × List Call)
    (hdis : ∀ s : tcp_socket, s.sock = INVALID_SOCKET → (disconnect s).1.sock = INVALID_SOCKET)
    (self : tcp_socket) (op : Op) (h : self.sock = INVALID_SOCKET)
    (hop : op.is_connect = false) :
    (Op.apply USE_OPENSSL disconnect self op).sock = INVALID_SOCKET := by
  cases op with
  | connect ept os => simp [Op.is_connect] at hop
  | close r c => exact close_keeps_invalid USE_OPENSSL self r c h
  | ssl_handshake tls =>
    show (self.ssl_handshake USE_OPENSSL tls).state.sock = INVALID_SOCKET
    rw [ssl_handshake_sock]; exact h
  | read buffer size flags a =>
    exact read_keeps_invalid USE_OPENSSL disconnect hdis self buffer size flags a h
  | write buffer size flags a => exact write_keeps_invalid USE_OPENSSL self buffer size flags a h

/-- A sequence of public operations without `connect` leaves an object whose
descriptor is `INVALID_SOCKET` with that descriptor. -/
theorem run_ops_keeps_invalid (USE_OPENSSL : Bool)
    (disconnect : tcp_socket → tcp_socket × List Call)
    (hdis : ∀ s : tcp_socket, s.sock = INVALID_SOCKET → (disconnect s).1.sock = INVALID_SOCKET) :
    ∀ (ops : List Op) (self : tcp_socket), self.sock = INVALID_SOCKET →
      (∀ op ∈ ops, op.is_connect = false) →
      (run_ops USE_OPENSSL disconnect self ops).sock = INVALID_SOCKET := by
  intro ops
  induction ops with
  | nil => intro self h _; exact h
  | cons op rest ih =>
    intro self h hops
    unfold run_ops
    exact ih _ (apply_keeps_invalid USE_OPENSSL disconnect hdis self op h (hops op (by simp)))
      (fun o ho => hops o (by simp [ho]))

end socketio

namespace socketio

/-- Member `connect` with a first success on candidate `k`, on any object: it
returns and the object holds the descriptor of that candidate. -/
theorem connect_succeeds_on (self : tcp_socket) (ept : endpoint) (os : Nat → Attempt)
    (k : Nat) (hk : k < ept.addr_info.length)
    (hfail : ∀ j, j < k → (os j).socket_ret = 0 ∨ (os j).connect_ret ≠ 0)
    (hopen : (os k).socket_ret ≠ 0) (hconn : (os k).connect_ret = 0) :
    (self.connect ept os).outcome = Outcome.returned () ∧
    (self.connect ept os).state.sock = (os k).socket_ret := by
  have hfail2 : ∀ j, j < k → (os (0 + j)).socket_ret = 0 ∨ (os (0 + j)).connect_ret ≠ 0 := by
    intro j hj; simpa using hfail j hj
  obtain ⟨e1, _⟩ := connect_loop_first_success os ept.addr_info 0 self.sock "" [] k hk hfail2
    (by simpa using hopen) (by simpa using hconn)
  simp only [Nat.zero_add] at e1
  have hne : (connect_loop os ept.addr_info 0 self.sock "" []).1 ≠ 0 := by rw [e1]; exact hopen
  unfold tcp_socket.connect
  simp only [hne, if_false]
  exact ⟨trivial, e1⟩

/-- C12, counterexample.  The connected socket on descriptor 3 is closed and is
then unconnected; a later `connect` whose second candidate accepts returns and
leaves this same instance connected, on descriptor 4, as it leaves a fresh
instance. -/
theorem closed_instance_reconnects :
    plain3.is_connected = true ∧
    (plain3.close false 0 0).state.is_connected = false ∧
    ((plain3.close false 0 0).state.connect ept_two os_second_accepts).outcome
      = Outcome.returned () ∧
    ((plain3.close false 0 0).state.connect ept_two os_second_accepts).state.is_connected
      = true ∧
    ((plain3.close false 0 0).state.connect ept_two os_second_accepts).state.sock = 4 ∧
    (tcp_socket.new.connect ept_two os_second_accepts).state.is_connected = true := by
  decide

/-- C12, amended.  Once `close()` has been called on an instance whose descriptor
is not 0, the instance is unconnected, and every later sequence of `close`,
`ssl_handshake`, `read` and `write` calls, however each of them ends, leaves it
unconnected (given that the undeclared `disconnect` leaves an invalid descriptor
invalid); a `connect` after them whose attempt on some candidate succeeds returns
and makes this same instance connected again, on the descriptor of that candidate. -/
theorem closed_until_connect (USE_OPENSSL : Bool)
    (disconnect : tcp_socket → tcp_socket × List Call)
    (hdis : ∀ s : tcp_socket, s.sock = INVALID_SOCKET → (disconnect s).1.sock = INVALID_SOCKET)
    (self : tcp_socket) (r c : Int) (ops : List Op) (ept : endpoint) (os : Nat → Attempt)
    (k : Nat)
    (hsock : self.sock ≠ 0) (hops : ∀ op ∈ ops, op.is_connect = false)
    (hk : k < ept.addr_info.length)
    (hfail : ∀ j, j < k → (os j).socket_ret = 0 ∨ (os j).connect_ret ≠ 0)
    (hopen : (os k).socket_ret ≠ 0) (hvalid : (os k).socket_ret ≠ INVALID_SOCKET)
    (hconn : (os k).connect_ret = 0) :
    (self.close USE_OPENSSL r c).state.is_connected = false ∧
    (run_ops USE_OPENSSL disconnect (self.close USE_OPENSSL r c).state ops).is_connected
      = false ∧
    ((run_ops USE_OPENSSL disconnect (self.close USE_OPENSSL r c).state ops).connect
      ept os).outcome = Outcome.returned () ∧
    ((run_ops USE_OPENSSL disconnect (self.close USE_OPENSSL r c).state ops).connect
      ept os).state.sock = (os k).socket_ret ∧
    ((run_ops USE_OPENSSL disconnect (self.close USE_OPENSSL r c).state ops).connect
      ept os).state.is_connected = true := by
  have h1 : (self.close USE_OPENSSL r c).state.sock = INVALID_SOCKET := by
    rw [close_state]; simp [hsock]
  have h2 := run_ops_keeps_invalid USE_OPENSSL disconnect hdis ops _ h1 hops
  obtain ⟨h3, h4⟩ := connect_succeeds_on
    (run_ops USE_OPENSSL disconnect (self.close USE_OPENSSL r c).state ops) ept os k hk hfail
    hopen hconn
  refine ⟨?_, ?_, h3, h4, ?_⟩
  · simp [tcp_socket.is_connected, h1]
  · simp [tcp_socket.is_connected, h2]
  · simp [tcp_socket.is_connected, h4, hvalid]

/-- Witness of C12, amended: the socket on descriptor 3 is closed, then closed
again, written to, put through a failing handshake and read from, and stays
unconnected; a `connect` whose second candidate accepts then connects it. -/
theorem closed_until_connect_witness :
    (plain3.close true 0 0).state.is_connected = false ∧
    (run_ops true disconnect_nothing (plain3.close true 0 0).state ops_after_close).is_connected
      = false ∧
    ((run_ops true disconnect_nothing (plain3.close true 0 0).state ops_after_close).connect
      ept_two os_second_accepts).state.is_connected = true := by
  have h := closed_until_connect true disconnect_nothing (fun _ hs => hs) plain3 0 0
    ops_after_close ept_two os_second_accepts 1 (by decide)
    (by intro op hop
        simp only [ops_after_close, List.mem_cons, List.mem_singleton, List.not_mem_nil,
          or_false] at hop
        rcases hop with h | h | h | h <;> subst h <;> rfl)
    (by decide) (by intro j hj; interval_cases j; right; decide) (by decide) (by decide)
    (by decide)
  exact ⟨h.1, h.2.1, h.2.2.2.2⟩

end socketio

/-! ## Release of descriptors -/

namespace socketio

/-- When `shutdown` does not return 0, `sock_close` makes that one call and never
calls `closesocket`. -/
theorem sock_close_after_failed_shutdown (shutdown_ret closesocket_ret sock : Int)
    (h : shutdown_ret ≠ 0) :
    sock_close shutdown_ret closesocket_ret sock = (shutdown_ret, [Call.shutdown sock]) := by
  unfold sock_close
  simp [h]

/-- When `shutdown` does not return 0, `close()` calls `closesocket` on nothing, and
the descriptor field is `INVALID_SOCKET` afterwards all the same when it was not 0. -/
theorem close_after_failed_shutdown (USE_OPENSSL : Bool) (self : tcp_socket) (r c : Int)
    (hr : r ≠ 0) (hsock : self.sock ≠ 0) :
    (∀ fd, Call.closesocket fd ∉ (self.close USE_OPENSSL r c).trace) ∧
    Call.shutdown self.sock ∈ (self.close USE_OPENSSL r c).trace ∧
    (self.close USE_OPENSSL r c).state.sock = INVALID_SOCKET := by
  rw [close_trace, close_state, sock_close_after_failed_shutdown r c self.sock hr]
  simp only [hsock, ne_eq, not_false_eq_true, if_true]
  refine ⟨?_, by simp, trivial⟩
  intro fd hmem
  simp only [List.mem_append, List.mem_singleton] at hmem
  rcases hmem with h | h
  · cases USE_OPENSSL
    · simp at h
    · exact close_tls_no_closesocket self fd (by simpa using h)
  · cases h

/-- C13. The code at the failing input.  `connect` on an endpoint with two
candidates that get the descriptors 3 and 4 and both refuse, `shutdown` of the
unconnected sockets returning -1: both candidates are abandoned after `shutdown`
alone, `closesocket` is called on neither descriptor, and the descriptor field is
`INVALID_SOCKET`, so both descriptors stay open and are lost.  And `close()` on the
connected socket on descriptor 3 when `shutdown` returns -1: the only call is
`shutdown`, the descriptor field becomes `INVALID_SOCKET`, and descriptor 3 is not
released.  The claim has `closesocket` called in both cases whatever `shutdown`
returned. -/
theorem failed_shutdown_leaks_descriptor :
    (tcp_socket.new.connect ept_two os_refuse_fresh).trace =
      [Call.socket 0 10 1 6, Call.connect 3 0 100, Call.shutdown 3,
        Call.socket 1 2 1 6, Call.connect 4 1 101, Call.shutdown 4] ∧
    (tcp_socket.new.connect ept_two os_refuse_fresh).trace.filter Call.is_closesocket = [] ∧
    (tcp_socket.new.connect ept_two os_refuse_fresh).state.sock = INVALID_SOCKET ∧
    plain3.is_connected = true ∧
    (plain3.close false (-1) 0).trace = [Call.shutdown 3] ∧
    (plain3.close false (-1) 0).state.sock = INVALID_SOCKET ∧
    (plain3.close true (-1) 0).trace = [Call.shutdown 3] := by
  decide

/-- After `close()` on an object whose descriptor is not 0 the descriptor field is
`INVALID_SOCKET` and `is_valid()` and `is_connected()` are false. -/
theorem close_invalidates_nonzero (USE_OPENSSL : Bool) (self : tcp_socket) (r c : Int)
    (hsock : self.sock ≠ 0) :
    (self.close USE_OPENSSL r c).state.sock = INVALID_SOCKET ∧
    (self.close USE_OPENSSL r c).state.is_valid = false ∧
    (self.close USE_OPENSSL r c).state.is_connected = false := by
  have h : (self.close USE_OPENSSL r c).state.sock = INVALID_SOCKET := by
    rw [close_state]; simp [hsock]
  exact ⟨h, by simp [tcp_socket.is_valid, h], by simp [tcp_socket.is_connected, h]⟩

/-- After `close()` on an object whose descriptor is 0 the descriptor field is
still 0, whatever the build and the answers of the operating system, and no
`shutdown` or `closesocket` was called. -/
theorem close_keeps_zero (USE_OPENSSL : Bool) (self : tcp_socket) (r c : Int)
    (hsock : self.sock = 0) :
    (self.close USE_OPENSSL r c).state.sock = 0 ∧
    (self.close USE_OPENSSL r c).state.is_valid = true ∧
    (self.close USE_OPENSSL r c).state.is_connected = true ∧
    (∀ fd, Call.shutdown fd ∉ (self.close USE_OPENSSL r c).trace) ∧
    (∀ fd, Call.closesocket fd ∉ (self.close USE_OPENSSL r c).trace) := by
  have h : (self.close USE_OPENSSL r c).state.sock = 0 := by
    rw [close_state]; simp [hsock]
  have ht : (self.close USE_OPENSSL r c).trace =
      (if USE_OPENSSL then (close_tls self).2 else []) := by
    rw [close_trace]; simp [hsock]
  refine ⟨h, by simp [tcp_socket.is_valid, h, INVALID_SOCKET],
    by simp [tcp_socket.is_connected, h, INVALID_SOCKET], ?_, ?_⟩
  · intro fd hmem
    rw [ht] at hmem
    cases USE_OPENSSL
    · simp at hmem
    · simp only [if_true, close_tls_calls] at hmem
      by_cases h1 : self.ssl = 0 <;> by_cases h2 : self.ssl_ctx = 0 <;> simp [h1, h2] at hmem
  · intro fd hmem
    rw [ht] at hmem
    cases USE_OPENSSL
    · simp at hmem
    · exact close_tls_no_closesocket self fd (by simpa using hmem)

/-- C14. The code at the failing input: an object whose descriptor is 0, plain in
the build without TLS and secured in the build with it.  After `close()` returns
the descriptor field is 0, not `INVALID_SOCKET`, and `is_valid()` and
`is_connected()` both return true; the secured object has lost its session and
context but kept the descriptor. -/
theorem close_leaves_descriptor_zero :
    (plain0.close false 0 0).outcome = Outcome.returned () ∧
    (plain0.close false 0 0).state.sock = 0 ∧
    (plain0.close false 0 0).state.is_valid = true ∧
    (plain0.close false 0 0).state.is_connected = true ∧
    (secured0.close true 0 0).outcome = Outcome.returned () ∧
    (secured0.close true 0 0).state = ⟨0, endpoint.empty, 0, 0⟩ ∧
    (secured0.close true 0 0).trace =
      [Call.SSL_shutdown 1, Call.SSL_free 1, Call.SSL_CTX_free 2] ∧
    (secured0.close true 0 0).state.is_valid = true ∧
    (secured0.close true 0 0).state.is_connected = true := by
  decide

end socketio
